import Mathlib

/-!
Verification of the adaptive benchmarking core of ByteMLPerf's
`byte_micro_perf/backends/backend.py` (class `Backend`): the tensor
provisioner (`build_tensor`), the adaptive iteration planner and timed
execution core (`core_perf`), and the orchestration entry point (`perf`).

Modelling decisions (shallow embedding):
* Python floats are modelled as exact rationals (`ℚ`); Python ints as `ℕ`/`ℤ`.
* The externally supplied quantities (the byte-size tuple returned by the
  operator's `compute_size` function, the validity of `getattr(torch, dtype)`,
  the outcomes of `random.choice`, whether the operator's executable raises,
  and the elapsed nanoseconds reported by the monotonic clock) are inputs of
  the model (`Env` and `Oracle`).
* A Python exception is an `Except.error`; `perf` catching an exception is a
  `match` on that value.  Exceptions raised before the `try` block of `perf`
  (dtype lookup, `build_tensor`) propagate as `Except.error` results of `perf`.
* Tensor sets built by `create_tensors_func` are abstracted to `PyVal.tensorSet
  id` (one id per pool slot; the constructor is called once per slot).  The
  computation-branch statement `return [], 0, tensor_size` of `build_tensor`
  builds a Python 3-tuple; it is modelled as the 3-element sequence
  `[PyVal.emptyList, PyVal.num 0, PyVal.num tensor_size]`, since `perf` only
  applies `len` and `random.choice` to it.
* Calls to the operator are logged as events (`Event.opCall`), and so are the
  cleanup actions (`del tensor_list`, `empty_cache()`) and the report emission,
  so that ordering and "operator never invoked" claims can be stated.
-/

/-- A Python value that can end up inside the sequence returned by
`Backend.build_tensor`: either a genuine tensor-set built by
`create_tensors_func` (identified by its pool slot), or one of the stray
components of the `return [], 0, tensor_size` statement. -/
inductive PyVal where
  | tensorSet (id : ℕ)
  | emptyList
  | num (q : ℚ)
deriving DecidableEq, Repr

/-- Events observable during one `perf` invocation. `opCall slot v` records one
execution of `self._run_operation(self.op, v)` where `v` was taken from pool
slot `slot`; `freePool` records `del tensor_list`; `emptyCache` records
`self.empty_cache()`; `emitReport` records the call to the report emitter. -/
inductive Event where
  | opCall (slot : ℕ) (v : PyVal)
  | freePool
  | emptyCache
  | emitReport
deriving DecidableEq, Repr

/-- The per-invocation state of a `Backend` that `perf` reads, together with
the externally computed size information.  `sizeResult` is the tuple returned
by `compute_size_func(input_shapes, torch_dtype)`; `dtypeValid` records whether
`getattr(torch, dtype)` succeeds. -/
structure Env where
  op_name : String
  iterations : ℕ
  memory_limit : ℕ
  sizeResult : List ℚ
  dtypeValid : Bool
deriving DecidableEq, Repr

/-- External nondeterminism: `chooser j` drives the `j`-th `random.choice`
made by `perf` (warm-up makes choices 0..4, calibration choices 5..9); `opOk v`
says whether `operation(*v)` returns normally once the operator's executable is
actually entered with argument set `v`; `calibElapsedNs` and `coreElapsedNs`
are the elapsed nanoseconds measured around the calibration loop and around
the `core_perf` loop. -/
structure Oracle where
  chooser : ℕ → ℕ
  opOk : PyVal → Bool
  calibElapsedNs : ℕ
  coreElapsedNs : ℕ

/-- The operator-name list `build_tensor` checks to pick the single-tensor
communication policy (`backend.py` line 156). -/
def comm_ops_provision : List String :=
  ["allreduce", "allgather", "reducescatter", "alltoall", "broadcast", "p2p",
   "device2host", "host2device", "hash_table"]

/-- The operator-name list `perf` checks to emit a communication-ops report
(`backend.py` lines 245-248). -/
def comm_ops_report : List String :=
  ["allreduce", "allgather", "reducescatter", "alltoall", "broadcast", "p2p",
   "device2host", "host2device"]

/-- `assume_cache_size = 1 * 1024**3` (`backend.py` line 150). -/
def assume_cache_size : ℚ := 1024 ^ 3

/-- `assume_avail_bytes = self.memory_limit * 0.9 * 1024**3`
(`backend.py` line 152), as an exact rational. -/
def assume_avail_bytes (e : Env) : ℚ := (e.memory_limit : ℚ) * (9 / 10) * 1024 ^ 3

/-- Derivation of `tensor_size` from the byte-size tuple (`backend.py`
lines 140-145): component 1 of a 4-tuple, component 4 of a 5-tuple, and
unassigned (a `NameError` at first use) otherwise. -/
def derived_tensor_size (result : List ℚ) : Option ℚ :=
  if h4 : result.length = 4 then some (result.get ⟨1, by omega⟩)
  else if h5 : result.length = 5 then some (result.get ⟨4, by omega⟩)
  else none

/-- The branch of `build_tensor` below the `tensor_size` derivation
(`backend.py` lines 156-175), given the derived `tensor_size`.  The
communication branch returns a pool of 0 or 1 tensor-sets.  The computation
branch either returns the Python 3-tuple `([], 0, tensor_size)`, or builds
`max_data_cnt` tensor-sets; `math.floor(assume_avail_bytes / tensor_size)`
raises `ZeroDivisionError` when `tensor_size` is zero (float division). -/
def build_tensor_sized (e : Env) (tensor_size : ℚ) : Except String (List PyVal) :=
  if e.op_name ∈ comm_ops_provision then
    if tensor_size > assume_avail_bytes e then .ok []
    else .ok [PyVal.tensorSet 0]
  else
    if tensor_size > assume_avail_bytes e then
      .ok [PyVal.emptyList, PyVal.num 0, PyVal.num tensor_size]
    else if 2 * tensor_size > assume_avail_bytes e then
      .ok ((List.range 1).map PyVal.tensorSet)
    else if tensor_size > assume_cache_size then
      .ok ((List.range 2).map PyVal.tensorSet)
    else if tensor_size = 0 then .error "ZeroDivisionError"
    else
      .ok ((List.range
        (min ⌊assume_avail_bytes e / tensor_size⌋ (e.iterations : ℤ)).toNat).map
        PyVal.tensorSet)

/-- `Backend.build_tensor` (`backend.py` lines 135-175): obtain the byte-size
tuple, derive `tensor_size` (a `NameError` escapes if the tuple has length
neither 4 nor 5), then provision the pool. -/
def build_tensor (e : Env) : Except String (List PyVal) :=
  match derived_tensor_size e.sizeResult with
  | none => .error "NameError: tensor_size"
  | some tensor_size => build_tensor_sized e tensor_size

/-- `self._run_operation(self.op, inputs)` is `operation(*inputs)`
(`backend.py` lines 130-132).  Unpacking a non-iterable (`PyVal.num`) raises a
`TypeError` before the executable is entered; for a tensor-set (and for the
empty list, where `operation()` is called with no arguments) the executable is
entered and succeeds iff the oracle says so. -/
def callOk (opOk : PyVal → Bool) : PyVal → Bool
  | .num _ => false
  | v => opOk v

/-- Whether `operation(*v)` actually enters the operator's executable:
false only for the non-iterable stray values, where unpacking raises first. -/
def invokesOp : PyVal → Bool
  | .num _ => false
  | _ => true

/-- One run of `cnt` consecutive `self._run_operation(self.op,
random.choice(tensor_list))` calls (warm-up and calibration loops of `perf`,
`backend.py` lines 209-217), the `j`-th call using the oracle's `idx + j`-th
choice.  Returns the events of the calls made and whether all returned
normally (execution stops at the first exception). -/
def runCalls (o : Oracle) (tl : List PyVal) : ℕ → ℕ → List Event × Bool
  | _, 0 => ([], true)
  | idx, cnt + 1 =>
    let slot := o.chooser idx % tl.length
    let v := tl.getD slot (PyVal.num 0)
    if callOk o.opOk v then
      let rest := runCalls o tl (idx + 1) cnt
      (Event.opCall slot v :: rest.1, rest.2)
    else ([Event.opCall slot v], false)

/-- The loop of `core_perf` (`backend.py` lines 182-183) starting at index
`i` with `cnt` iterations remaining: each iteration runs the operator on
`tensor_list[i % len(tensor_list)]`.  An empty pool makes `i %
len(tensor_list)` raise `ZeroDivisionError`.  Returns the events and whether
the whole loop completed normally. -/
def coreLoop (opOk : PyVal → Bool) (tl : List PyVal) : ℕ → ℕ → List Event × Bool
  | _, 0 => ([], true)
  | i, cnt + 1 =>
    if tl.length = 0 then ([], false)
    else
      let slot := i % tl.length
      let v := tl.getD slot (PyVal.num 0)
      if callOk opOk v then
        let rest := coreLoop opOk tl (i + 1) cnt
        (Event.opCall slot v :: rest.1, rest.2)
      else ([Event.opCall slot v], false)

/-- `Backend.core_perf` (`backend.py` lines 178-188): run `prefer_iterations`
operator calls cycling through the pool by index modulo pool length, then
return `(end_time - start_time) / 1e3 / prefer_iterations` — a
`ZeroDivisionError` when `prefer_iterations = 0`.  `elapsedNs` is the
clock's `end_time - start_time`. -/
def core_perf (opOk : PyVal → Bool) (elapsedNs : ℕ) (prefer_iterations : ℕ)
    (tl : List PyVal) : List Event × Except String ℚ :=
  let run := coreLoop opOk tl 0 prefer_iterations
  if run.2 then
    if prefer_iterations = 0 then (run.1, .error "ZeroDivisionError")
    else (run.1, .ok ((elapsedNs : ℚ) / 1000 / prefer_iterations))
  else (run.1, .error "RUN_OP_ERROR")

/-- The iteration decision of `perf` (`backend.py` lines 224-227):
`prefer_iterations = 2` when the calibrated average exceeds the 10-second
budget, otherwise `min(math.ceil(10.0 / avg), self.iterations)`; a zero
average makes the float division raise `ZeroDivisionError`. -/
def plan_iterations (avg : ℚ) (iterations : ℕ) : Except String ℕ :=
  if avg > 10 then .ok 2
  else if avg = 0 then .error "ZeroDivisionError"
  else .ok (min ⌈(10 : ℚ) / avg⌉ (iterations : ℤ)).toNat

/-- Python's `round(x, 2)` (modelled with round-half-away-from-zero on the
exact rational; the claims under verification never depend on the tie rule). -/
def round2 (q : ℚ) : ℚ := (round (q * 100) : ℚ) / 100

/-- The body of the `try` block of `perf` (`backend.py` lines 200-229):
warm-up (5 random-slot calls), calibration (5 random-slot calls, timed),
iteration planning, then the timed `core_perf` run whose result is rounded to
2 decimals.  Returns the operator-call events together with either the final
latency or the first exception. -/
def perf_try (e : Env) (o : Oracle) (tl : List PyVal) : List Event × Except String ℚ :=
  let warm := runCalls o tl 0 5
  if ¬ warm.2 then (warm.1, .error "RUN_OP_ERROR") else
  let calib := runCalls o tl 5 5
  if ¬ calib.2 then (warm.1 ++ calib.1, .error "RUN_OP_ERROR") else
  let avg_op_duration : ℚ := (o.calibElapsedNs : ℚ) / 10 ^ 9 / 5
  match plan_iterations avg_op_duration e.iterations with
  | .error msg => (warm.1 ++ calib.1, .error msg)
  | .ok prefer_iterations =>
    let core := core_perf o.opOk o.coreElapsedNs prefer_iterations tl
    match core.2 with
    | .error msg => (warm.1 ++ calib.1 ++ core.1, .error msg)
    | .ok lat => (warm.1 ++ calib.1 ++ core.1, .ok (round2 lat))

/-- The report record returned by `perf`: which emitter was used
(`comm = true` for `dump_communication_ops_report`), the latency and the
error string. -/
structure Report where
  comm : Bool
  latency : ℚ
  error : String
deriving DecidableEq, Repr

/-- `Backend.perf` (`backend.py` lines 191-265).  `getattr(torch, dtype)` and
`build_tensor` run before the `try` block, so their exceptions propagate
(`Except.error` result).  Otherwise: non-empty pool → run `perf_try`, catching
any exception as latency 0 / `"RUN_OP_ERROR"`; empty pool → latency 0 /
`"OOM"`; then the pool is freed and the device cache emptied, and the report
emitted (communication emitter exactly for the names in `comm_ops_report`). -/
def perf (e : Env) (o : Oracle) : Except String (Report × List Event) :=
  if ¬ e.dtypeValid then .error "AttributeError" else
  match build_tensor e with
  | .error msg => .error msg
  | .ok tensor_list =>
    let step : List Event × ℚ × String :=
      if 0 < tensor_list.length then
        match perf_try e o tensor_list with
        | (evs, .ok lat) => (evs, lat, "")
        | (evs, .error _) => (evs, 0, "RUN_OP_ERROR")
      else ([], 0, "OOM")
    .ok ({ comm := e.op_name ∈ comm_ops_report,
           latency := step.2.1, error := step.2.2 },
         step.1 ++ [Event.freePool, Event.emptyCache, Event.emitReport])

/-- A trivial oracle: always choose slot 0, every operator call succeeds, no
time elapses. -/
def o_triv : Oracle :=
  { chooser := fun _ => 0, opOk := fun _ => true, calibElapsedNs := 0, coreElapsedNs := 0 }

def tl_C4 : List PyVal := [PyVal.tensorSet 0, PyVal.tensorSet 1]

def e_C7w : Env :=
  { op_name := "allreduce", iterations := 7, memory_limit := 1,
    sizeResult := [1, 2, 3, 4], dtypeValid := true }

def e_C10w : Env :=
  { op_name := "gemm", iterations := 1, memory_limit := 1,
    sizeResult := [], dtypeValid := true }

def e_C1 : Env :=
  { op_name := "gemm", iterations := 100, memory_limit := 1,
    sizeResult := [1, 2 ^ 31, 2 ^ 31, 2 ^ 31], dtypeValid := true }

def o_C1 : Oracle :=
  { chooser := fun _ => 0, opOk := fun _ => false, calibElapsedNs := 0, coreElapsedNs := 0 }

def e_C2c : Env :=
  { op_name := "gemm", iterations := 1, memory_limit := 1,
    sizeResult := [1, 2, 3], dtypeValid := true }

def e_C2w : Env :=
  { op_name := "broadcast", iterations := 2, memory_limit := 1,
    sizeResult := [1, 2, 3, 4], dtypeValid := true }

def e_C6 : Env :=
  { op_name := "hash_table", iterations := 3, memory_limit := 1,
    sizeResult := [1, 2, 3, 4], dtypeValid := true }

def o_C6 : Oracle :=
  { chooser := fun _ => 0, opOk := fun _ => false, calibElapsedNs := 0, coreElapsedNs := 0 }

def e_C5 : Env :=
  { op_name := "gemm", iterations := 100, memory_limit := 10,
    sizeResult := [1, 2 ^ 31, 2 ^ 31, 2 ^ 31], dtypeValid := true }

def e_C5w : Env :=
  { op_name := "gemm", iterations := 3, memory_limit := 10,
    sizeResult := [1, 2 ^ 20, 2 ^ 20, 2 ^ 20], dtypeValid := true }

def e_C8w : Env :=
  { op_name := "p2p", iterations := 4, memory_limit := 1,
    sizeResult := [1, 2, 3, 4], dtypeValid := true }

def o_C8f : Oracle :=
  { chooser := fun _ => 0, opOk := fun _ => false, calibElapsedNs := 0, coreElapsedNs := 0 }

def e_C9 : Env :=
  { op_name := "allreduce", iterations := 0, memory_limit := 1,
    sizeResult := [1, 2, 3, 4], dtypeValid := true }

def o_C9 : Oracle :=
  { chooser := fun _ => 0, opOk := fun _ => true,
    calibElapsedNs := 10 ^ 11, coreElapsedNs := 1000 }

def o_C9w : Oracle :=
  { chooser := fun _ => 0, opOk := fun _ => true,
    calibElapsedNs := 10 ^ 10, coreElapsedNs := 1000 }

/-! ### Helper lemmas -/

/-- When the operator's executable fails on every argument set, every
`_run_operation` call raises, whatever value it is handed. -/
lemma callOk_of_opOk_false (opOk : PyVal → Bool) (hfail : ∀ v, opOk v = false)
    (v : PyVal) : callOk opOk v = false := by
  cases v <;> simp [callOk, hfail]

/-- The value `random.choice` / modulo indexing reads is an element of the
pool. -/
lemma getD_mem (tl : List PyVal) (h : 0 < tl.length) (i : ℕ) :
    tl.getD (i % tl.length) (PyVal.num 0) ∈ tl := by
  have hlt : i % tl.length < tl.length := Nat.mod_lt _ h
  rw [List.getD_eq_getElem _ _ hlt]
  exact List.getElem_mem hlt

/-- A warm-up/calibration loop over a pool whose every element is callable
completes normally. -/
lemma runCalls_ok (o : Oracle) (tl : List PyVal) (hlen : 0 < tl.length)
    (hok : ∀ v ∈ tl, callOk o.opOk v = true) :
    ∀ cnt idx, (runCalls o tl idx cnt).2 = true := by
  intro cnt
  induction cnt with
  | zero => intro idx; simp [runCalls]
  | succ n ih =>
    intro idx
    have hv := hok _ (getD_mem tl hlen (o.chooser idx))
    simp only [List.getD_eq_getElem?_getD] at hv
    simp [runCalls, hv, ih]

/-- A warm-up/calibration loop stops, reporting failure, at its very first
call when that call raises. -/
lemma runCalls_fail_head (o : Oracle) (tl : List PyVal) (idx cnt : ℕ)
    (hfail : callOk o.opOk (tl.getD (o.chooser idx % tl.length) (PyVal.num 0)) = false) :
    runCalls o tl idx (cnt + 1) =
      ([Event.opCall (o.chooser idx % tl.length)
          (tl.getD (o.chooser idx % tl.length) (PyVal.num 0))], false) := by
  simp only [List.getD_eq_getElem?_getD] at hfail
  simp [runCalls, hfail]

/-- The timed loop of `core_perf`, started at index `i` over a non-empty pool
whose every element is callable, performs one call per iteration, the call at
index `j` using pool slot `j % len`. -/
lemma coreLoop_ok (opOk : PyVal → Bool) (tl : List PyVal) (hlen : 0 < tl.length)
    (hok : ∀ v ∈ tl, callOk opOk v = true) :
    ∀ cnt i, coreLoop opOk tl i cnt =
      ((List.range' i cnt).map
        (fun j => Event.opCall (j % tl.length) (tl.getD (j % tl.length) (PyVal.num 0))),
       true) := by
  intro cnt
  induction cnt with
  | zero => intro i; simp [coreLoop]
  | succ n ih =>
    intro i
    have hv := hok _ (getD_mem tl hlen i)
    simp only [List.getD_eq_getElem?_getD] at hv
    simp [coreLoop, hv, ih, List.range'_succ, Nat.ne_of_gt hlen]

/-- Rewriting `build_tensor` through a successful `tensor_size` derivation. -/
lemma build_tensor_eq_sized (e : Env) (ts : ℚ)
    (hts : derived_tensor_size e.sizeResult = some ts) :
    build_tensor e = build_tensor_sized e ts := by
  unfold build_tensor
  rw [hts]

/-- For a communication-class operator name, `build_tensor` provisions an
empty pool or a single tensor-set, depending only on the memory comparison. -/
lemma build_tensor_comm (e : Env) (ts : ℚ) (hcomm : e.op_name ∈ comm_ops_provision)
    (hts : derived_tensor_size e.sizeResult = some ts) :
    build_tensor e =
      .ok (if ts > assume_avail_bytes e then [] else [PyVal.tensorSet 0]) := by
  rw [build_tensor_eq_sized e ts hts]
  unfold build_tensor_sized
  rw [if_pos hcomm, apply_ite Except.ok]

/-- Once the pool has been built, `perf` always returns a report: the whole
measurement phase sits inside the `try` block. -/
lemma perf_ok_shape (e : Env) (o : Oracle) (tl : List PyVal)
    (hd : e.dtypeValid = true) (hb : build_tensor e = .ok tl) :
    ∃ r evs, perf e o = .ok (r, evs) := by
  unfold perf
  rw [hb]
  simp [hd]

/-- When the very first warm-up call raises, `perf` reports latency 0 with
`"RUN_OP_ERROR"`, and the event trace is that single call followed by the
cleanup actions and the report emission. -/
lemma perf_fail_first (e : Env) (o : Oracle) (tl : List PyVal)
    (hd : e.dtypeValid = true) (hb : build_tensor e = .ok tl) (hlen : 0 < tl.length)
    (hfail : callOk o.opOk (tl.getD (o.chooser 0 % tl.length) (PyVal.num 0)) = false) :
    perf e o =
      .ok ({ comm := e.op_name ∈ comm_ops_report, latency := 0, error := "RUN_OP_ERROR" },
        [Event.opCall (o.chooser 0 % tl.length)
           (tl.getD (o.chooser 0 % tl.length) (PyVal.num 0)),
         Event.freePool, Event.emptyCache, Event.emitReport]) := by
  have hw := runCalls_fail_head o tl 0 4 hfail
  have hpt : perf_try e o tl =
      ([Event.opCall (o.chooser 0 % tl.length)
          (tl.getD (o.chooser 0 % tl.length) (PyVal.num 0))],
       .error "RUN_OP_ERROR") := by
    unfold perf_try
    rw [hw]
    simp
  unfold perf
  rw [hb]
  simp [hd, hlen, hpt]

/-! ### Claim theorems -/

/-- C3: after calibration, `perf` uses 2 iterations exactly in the branch
`avg_op_duration_seconds > 10.0`, and otherwise (for a positive measured
average) `min(ceil(10.0 / avg_op_duration_seconds), requested_iterations)`;
in particular, an average of 0.001 s with 100000 requested iterations yields
10000 iterations. -/
theorem claim_C3_planner (avg : ℚ) (iterations : ℕ) :
    (avg > 10 → plan_iterations avg iterations = .ok 2) ∧
    (0 < avg → avg ≤ 10 →
      plan_iterations avg iterations =
        .ok (min ⌈(10 : ℚ) / avg⌉ (iterations : ℤ)).toNat) ∧
    plan_iterations (1 / 1000) 100000 = .ok 10000 := by
  refine ⟨fun h => ?_, fun h1 h2 => ?_, ?_⟩
  · unfold plan_iterations
    rw [if_pos h]
  · unfold plan_iterations
    rw [if_neg (not_lt.mpr h2), if_neg (ne_of_gt h1)]
  · unfold plan_iterations
    norm_num
    decide

theorem claim_C3_planner_witness :
    plan_iterations 20 7 = .ok 2 ∧
    plan_iterations 5 100 = .ok (min ⌈(10 : ℚ) / 5⌉ ((100 : ℕ) : ℤ)).toNat :=
  ⟨(claim_C3_planner 20 7).1 (by norm_num),
   (claim_C3_planner 5 100).2.1 (by norm_num) (by norm_num)⟩

/-- C4: `core_perf` over a pool of size `k ≥ 1` with `prefer_iterations =
n ≥ 1` (the operator returning normally on every pool element) performs
exactly `n` operator calls, the `i`-th against pool slot `i % k`, and returns
elapsed nanoseconds / 1000 / n. -/
theorem claim_C4_core_perf (opOk : PyVal → Bool) (elapsedNs n : ℕ) (tl : List PyVal)
    (hk : 0 < tl.length) (hn : 0 < n) (hok : ∀ v ∈ tl, callOk opOk v = true) :
    core_perf opOk elapsedNs n tl =
      ((List.range n).map
        (fun i => Event.opCall (i % tl.length) (tl.getD (i % tl.length) (PyVal.num 0))),
       .ok ((elapsedNs : ℚ) / 1000 / (n : ℚ))) ∧
    (core_perf opOk elapsedNs n tl).1.length = n := by
  have h := coreLoop_ok opOk tl hk hok n 0
  have heq : core_perf opOk elapsedNs n tl =
      ((List.range n).map
        (fun i => Event.opCall (i % tl.length) (tl.getD (i % tl.length) (PyVal.num 0))),
       .ok ((elapsedNs : ℚ) / 1000 / (n : ℚ))) := by
    simp [core_perf, h, Nat.ne_of_gt hn, List.range_eq_range']
  exact ⟨heq, by rw [heq]; simp⟩

theorem claim_C4_core_perf_witness :
    core_perf (fun _ => true) 4000 3 tl_C4 =
      ((List.range 3).map
        (fun i => Event.opCall (i % tl_C4.length) (tl_C4.getD (i % tl_C4.length) (PyVal.num 0))),
       .ok (((4000 : ℕ) : ℚ) / 1000 / ((3 : ℕ) : ℚ))) ∧
    (core_perf (fun _ => true) 4000 3 tl_C4).1.length = 3 :=
  claim_C4_core_perf (fun _ => true) 4000 3 tl_C4 (by decide) (by decide) (by decide)

/-- C7: for every communication-class operator name the provisioner's pool
has size at most 1 — exactly one tensor-set when `tensor_size` is within
`assume_avail_bytes`, and empty otherwise. -/
theorem claim_C7_comm_pool (e : Env) (ts : ℚ)
    (hcomm : e.op_name ∈ comm_ops_provision)
    (hts : derived_tensor_size e.sizeResult = some ts) :
    (∀ l, build_tensor e = .ok l → l.length ≤ 1) ∧
    (ts ≤ assume_avail_bytes e → build_tensor e = .ok [PyVal.tensorSet 0]) ∧
    (ts > assume_avail_bytes e → build_tensor e = .ok []) := by
  have h := build_tensor_comm e ts hcomm hts
  refine ⟨fun l hl => ?_, fun hle => ?_, fun hgt => ?_⟩
  · rw [h] at hl
    have hl' : (if ts > assume_avail_bytes e then ([] : List PyVal)
        else [PyVal.tensorSet 0]) = l := by simpa using hl
    by_cases hc : ts > assume_avail_bytes e
    · rw [if_pos hc] at hl'
      rw [← hl']
      simp
    · rw [if_neg hc] at hl'
      rw [← hl']
      simp
  · rw [h, if_neg (not_lt.mpr hle)]
  · rw [h, if_pos hgt]

theorem claim_C7_comm_pool_witness :
    ("allreduce" ∈ comm_ops_provision) ∧
    derived_tensor_size e_C7w.sizeResult = some 2 ∧
    ((∀ l, build_tensor e_C7w = .ok l → l.length ≤ 1) ∧
     ((2 : ℚ) ≤ assume_avail_bytes e_C7w → build_tensor e_C7w = .ok [PyVal.tensorSet 0]) ∧
     ((2 : ℚ) > assume_avail_bytes e_C7w → build_tensor e_C7w = .ok [])) :=
  ⟨by decide, by rfl, claim_C7_comm_pool e_C7w 2 (by decide) (by rfl)⟩

/-- C10: a byte-size tuple of length neither 4 nor 5 leaves `tensor_size`
unassigned, so `build_tensor` raises, and since `build_tensor` runs before
the `try` block of `perf`, the exception escapes `perf`. -/
theorem claim_C10_bad_tuple (e : Env) (o : Oracle) (hd : e.dtypeValid = true)
    (h4 : e.sizeResult.length ≠ 4) (h5 : e.sizeResult.length ≠ 5) :
    build_tensor e = .error "NameError: tensor_size" ∧
    perf e o = .error "NameError: tensor_size" := by
  have hds : derived_tensor_size e.sizeResult = none := by
    unfold derived_tensor_size
    rw [dif_neg h4, dif_neg h5]
  have hb : build_tensor e = .error "NameError: tensor_size" := by
    unfold build_tensor
    rw [hds]
  refine ⟨hb, ?_⟩
  unfold perf
  rw [hb]
  simp [hd]

theorem claim_C10_bad_tuple_witness :
    build_tensor e_C10w = .error "NameError: tensor_size" ∧
    perf e_C10w o_triv = .error "NameError: tensor_size" :=
  claim_C10_bad_tuple e_C10w o_triv (by rfl) (by decide) (by decide)

/-- C1 (code divergence, evaluated at the failing input): for a
computation-class operator whose `tensor_size` (2 GiB) exceeds
`assume_avail_bytes` (0.9 GiB), `build_tensor` returns the Python 3-tuple
`([], 0, tensor_size)` rather than an empty pool, so `perf` treats the pool
as non-empty, hands a stray value to the operator (here the empty list, which
does enter the executable), and reports `"RUN_OP_ERROR"` — not `"OOM"`. -/
theorem claim_C1_oom_divergence :
    build_tensor e_C1 = .ok [PyVal.emptyList, PyVal.num 0, PyVal.num (2 ^ 31)] ∧
    invokesOp PyVal.emptyList = true ∧
    perf e_C1 o_C1 =
      .ok ({ comm := false, latency := 0, error := "RUN_OP_ERROR" },
        [Event.opCall 0 PyVal.emptyList,
         Event.freePool, Event.emptyCache, Event.emitReport]) := by
  have hb : build_tensor e_C1 = .ok [PyVal.emptyList, PyVal.num 0, PyVal.num (2 ^ 31)] := by
    rw [build_tensor_eq_sized e_C1 (2 ^ 31) (by rfl)]
    unfold build_tensor_sized
    rw [if_neg (by decide), if_pos (by norm_num [assume_avail_bytes, e_C1])]
  have h := perf_fail_first e_C1 o_C1 _ rfl hb (by decide)
    (callOk_of_opOk_false _ (fun _ => rfl) _)
  exact ⟨hb, rfl, by rw [h]; rfl⟩

/-- C2 (counterexample): with a byte-size function returning a 3-tuple,
`perf` raises (`NameError` from `build_tensor`, which runs before the `try`
block) instead of converting the failure into the report's error field. -/
theorem claim_C2_counterexample :
    perf e_C2c o_triv = .error "NameError: tensor_size" := by rfl

/-- C2 (amended): `perf` never raises provided the dtype lookup succeeds and
`build_tensor` returns a pool (byte-size tuple of a supported arity, tensor
construction succeeding); every failure of the warm-up / calibration / timed
phases is converted into the report's error field.  Failures before the pool
exists (invalid dtype, bad byte-size tuple) do propagate. -/
theorem claim_C2_no_raise_after_pool (e : Env) (o : Oracle) (tl : List PyVal)
    (hd : e.dtypeValid = true) (hb : build_tensor e = .ok tl) :
    ∃ r evs, perf e o = .ok (r, evs) :=
  perf_ok_shape e o tl hd hb

theorem claim_C2_no_raise_after_pool_witness :
    ∃ r evs, perf e_C2w o_triv = .ok (r, evs) :=
  claim_C2_no_raise_after_pool e_C2w o_triv [PyVal.tensorSet 0] (by rfl)
    (by
      rw [build_tensor_comm e_C2w 2 (by decide) (by rfl),
        if_neg (by norm_num [assume_avail_bytes, e_C2w])])

/-- C6 (counterexample): `"hash_table"` is in the provisioner's
communication-class list but not in the list `perf` uses to pick the
communication-ops report: at a hash_table workload the provisioner applies
the single-tensor communication policy, yet `perf` emits a computation-ops
report (`comm = false`).  The two checked lists are not the same set. -/
theorem claim_C6_counterexample :
    ("hash_table" ∈ comm_ops_provision) ∧ ("hash_table" ∉ comm_ops_report) ∧
    build_tensor e_C6 = .ok [PyVal.tensorSet 0] ∧
    perf e_C6 o_C6 =
      .ok ({ comm := false, latency := 0, error := "RUN_OP_ERROR" },
        [Event.opCall 0 (PyVal.tensorSet 0),
         Event.freePool, Event.emptyCache, Event.emitReport]) := by
  have hb : build_tensor e_C6 = .ok [PyVal.tensorSet 0] := by
    rw [build_tensor_comm e_C6 2 (by decide) (by rfl),
      if_neg (by norm_num [assume_avail_bytes, e_C6])]
  have h := perf_fail_first e_C6 o_C6 _ rfl hb (by decide)
    (callOk_of_opOk_false _ (fun _ => rfl) _)
  exact ⟨by decide, by decide, hb, by rw [h]; rfl⟩

/-- C6 (amended): the provisioner's communication-class list is exactly the
report-time communication list extended by `"hash_table"`; that one name is
provisioned under the communication policy but reported as a computation
operator. -/
theorem claim_C6_lists_differ_by_hash_table :
    comm_ops_provision = comm_ops_report ++ ["hash_table"] ∧
    "hash_table" ∉ comm_ops_report := by
  exact ⟨rfl, by decide⟩

/-- C5 (counterexample): a computation-class workload with `tensor_size =
2^31` bytes (2 GiB), inside the claimed range `[1, assume_avail_bytes / 2)`
for `assume_avail_bytes = 9 * 2^30`, gets a pool of size 2 (the
larger-than-cache branch), not `min(floor(assume_avail_bytes / tensor_size),
requested_iterations) = 4` as the claim states. -/
theorem claim_C5_counterexample :
    ((1 : ℚ) ≤ 2 ^ 31) ∧ ((2 ^ 31 : ℚ) < assume_avail_bytes e_C5 / 2) ∧
    build_tensor e_C5 = .ok [PyVal.tensorSet 0, PyVal.tensorSet 1] ∧
    (min ⌊assume_avail_bytes e_C5 / (2 ^ 31 : ℚ)⌋ (e_C5.iterations : ℤ)).toNat = 4 ∧
    [PyVal.tensorSet 0, PyVal.tensorSet 1].length = 2 ∧ (2 : ℕ) ≠ 4 := by
  refine ⟨by norm_num, by norm_num [assume_avail_bytes, e_C5], ?_, ?_, by decide, by decide⟩
  · rw [build_tensor_eq_sized e_C5 (2 ^ 31) (by rfl)]
    unfold build_tensor_sized
    rw [if_neg (by decide), if_neg (by norm_num [assume_avail_bytes, e_C5]),
      if_neg (by norm_num [assume_avail_bytes, e_C5]),
      if_pos (by norm_num [assume_cache_size])]
    rfl
  · have hfl : ⌊assume_avail_bytes e_C5 / (2 ^ 31 : ℚ)⌋ = 4 := by
      norm_num [assume_avail_bytes, e_C5]
    rw [hfl]
    decide

/-- C5 (amended): for a computation-class operator, the
`min(floor(assume_avail_bytes / tensor_size), requested_iterations)` pool-size
formula holds on the range `1 ≤ tensor_size ≤ assume_cache_size` (1 GiB) with
`2 * tensor_size ≤ assume_avail_bytes`, and the pool then has size ≥ 1
provided at least one iteration was requested; above the 1 GiB cache bound
the code instead caps the pool at 2 instances. -/
theorem claim_C5_pool_formula (e : Env) (ts : ℚ)
    (hcomp : e.op_name ∉ comm_ops_provision)
    (hts : derived_tensor_size e.sizeResult = some ts)
    (h1 : 1 ≤ ts) (hcache : ts ≤ assume_cache_size)
    (h2 : 2 * ts ≤ assume_avail_bytes e) (hit : 1 ≤ e.iterations) :
    build_tensor e =
      .ok ((List.range
        (min ⌊assume_avail_bytes e / ts⌋ (e.iterations : ℤ)).toNat).map PyVal.tensorSet) ∧
    ∀ l, build_tensor e = .ok l →
      l.length = (min ⌊assume_avail_bytes e / ts⌋ (e.iterations : ℤ)).toNat ∧
      1 ≤ l.length := by
  have hts0 : (0 : ℚ) < ts := by linarith
  have hb : build_tensor e =
      .ok ((List.range
        (min ⌊assume_avail_bytes e / ts⌋ (e.iterations : ℤ)).toNat).map PyVal.tensorSet) := by
    rw [build_tensor_eq_sized e ts hts]
    unfold build_tensor_sized
    rw [if_neg hcomp, if_neg (by push_neg; linarith), if_neg (by push_neg; exact h2),
      if_neg (not_lt.mpr hcache), if_neg (ne_of_gt hts0)]
  refine ⟨hb, fun l hl => ?_⟩
  rw [hb] at hl
  have hl' : (List.range
      (min ⌊assume_avail_bytes e / ts⌋ (e.iterations : ℤ)).toNat).map PyVal.tensorSet = l := by
    simpa using hl
  rw [← hl', List.length_map, List.length_range]
  have hfl : (2 : ℤ) ≤ ⌊assume_avail_bytes e / ts⌋ := by
    rw [Int.le_floor]
    push_cast
    rw [le_div_iff₀ hts0]
    linarith
  have hitz : (1 : ℤ) ≤ (e.iterations : ℤ) := by exact_mod_cast hit
  exact ⟨rfl, by omega⟩

theorem claim_C5_pool_formula_witness :
    build_tensor e_C5w =
      .ok ((List.range
        (min ⌊assume_avail_bytes e_C5w / (2 ^ 20 : ℚ)⌋ (e_C5w.iterations : ℤ)).toNat).map
        PyVal.tensorSet) ∧
    ∀ l, build_tensor e_C5w = .ok l →
      l.length = (min ⌊assume_avail_bytes e_C5w / (2 ^ 20 : ℚ)⌋ (e_C5w.iterations : ℤ)).toNat ∧
      1 ≤ l.length :=
  claim_C5_pool_formula e_C5w (2 ^ 20) (by decide) (by rfl) (by norm_num)
    (by norm_num [assume_cache_size]) (by norm_num [assume_avail_bytes, e_C5w]) (by decide)

/-- If `perf` returns a report at all, the dtype lookup must have
succeeded. -/
lemma perf_ok_dtype (e : Env) (o : Oracle) (x : Report × List Event)
    (h : perf e o = .ok x) : e.dtypeValid = true := by
  cases hdt : e.dtypeValid with
  | true => rfl
  | false =>
    unfold perf at h
    rw [hdt] at h
    simp at h

/-- C8: whenever `perf` reaches a terminal state (it returns a report), the
event trace ends with freeing the pool, emptying the device cache, and then
emitting the report — cleanup precedes the report in every terminal state;
and when the operator's executable raises on every call and the pool is
non-empty, the report carries latency 0 and error `"RUN_OP_ERROR"`. -/
theorem claim_C8_cleanup (e : Env) (o : Oracle) (r : Report) (evs : List Event)
    (h : perf e o = .ok (r, evs)) :
    (∃ t, evs = t ++ [Event.freePool, Event.emptyCache, Event.emitReport]) ∧
    (∀ tl, build_tensor e = .ok tl → 0 < tl.length →
      (∀ v, o.opOk v = false) → r.latency = 0 ∧ r.error = "RUN_OP_ERROR") := by
  have hd := perf_ok_dtype e o (r, evs) h
  constructor
  · cases hbt : build_tensor e with
    | error msg =>
      unfold perf at h
      rw [hbt] at h
      simp [hd] at h
    | ok tl =>
      unfold perf at h
      rw [hbt] at h
      simp only [hd, Bool.not_true, if_neg, ite_false, not_false_iff] at h
      rw [if_neg (by simp)] at h
      injection h with hpair
      injection hpair with hr he
      exact ⟨_, he.symm⟩
  · intro tl hbt hlen hfail
    have hf := perf_fail_first e o tl hd hbt hlen (callOk_of_opOk_false _ hfail _)
    have hcomb := hf.symm.trans h
    injection hcomb with hpair
    injection hpair with hr he
    rw [← hr]
    exact ⟨rfl, rfl⟩

theorem claim_C8_cleanup_witness :
    (∃ t, [Event.opCall 0 (PyVal.tensorSet 0), Event.freePool, Event.emptyCache,
        Event.emitReport] = t ++ [Event.freePool, Event.emptyCache, Event.emitReport]) ∧
    (∀ tl, build_tensor e_C8w = .ok tl → 0 < tl.length →
      (∀ v, o_C8f.opOk v = false) →
      ({ comm := true, latency := 0, error := "RUN_OP_ERROR" } : Report).latency = 0 ∧
      ({ comm := true, latency := 0, error := "RUN_OP_ERROR" } : Report).error
        = "RUN_OP_ERROR") :=
  claim_C8_cleanup e_C8w o_C8f { comm := true, latency := 0, error := "RUN_OP_ERROR" }
    [Event.opCall 0 (PyVal.tensorSet 0), Event.freePool, Event.emptyCache, Event.emitReport]
    (by
      have hb : build_tensor e_C8w = .ok [PyVal.tensorSet 0] := by
        rw [build_tensor_comm e_C8w 2 (by decide) (by rfl),
          if_neg (by norm_num [assume_avail_bytes, e_C8w])]
      rw [perf_fail_first e_C8w o_C8f [PyVal.tensorSet 0] rfl hb (by decide)
        (callOk_of_opOk_false _ (fun _ => rfl) _)]
      rfl)

/-- C9 (counterexample): with requested iterations 0, a non-empty pool and a
calibrated average of 20 s (> 10 s budget), the planner picks 2 iterations —
not 0 — and `perf` completes successfully with an empty error string, so the
claimed division by zero and `"RUN_OP_ERROR"` report do not occur on every
such invocation. -/
theorem claim_C9_counterexample :
    e_C9.iterations = 0 ∧
    build_tensor e_C9 = .ok [PyVal.tensorSet 0] ∧
    plan_iterations ((o_C9.calibElapsedNs : ℚ) / 10 ^ 9 / 5) e_C9.iterations = .ok 2 ∧
    (2 : ℕ) ≠ 0 ∧
    (∃ lat evs, perf e_C9 o_C9 = .ok ({ comm := true, latency := lat, error := "" }, evs)) ∧
    ("" : String) ≠ "RUN_OP_ERROR" := by
  have hb : build_tensor e_C9 = .ok [PyVal.tensorSet 0] := by
    rw [build_tensor_comm e_C9 2 (by decide) (by rfl),
      if_neg (by norm_num [assume_avail_bytes, e_C9])]
  have hok : ∀ v ∈ [PyVal.tensorSet 0], callOk o_C9.opOk v = true := by decide
  have hw := runCalls_ok o_C9 [PyVal.tensorSet 0] (by decide) hok
  have hplan : plan_iterations ((o_C9.calibElapsedNs : ℚ) / 10 ^ 9 / 5) e_C9.iterations
      = .ok 2 := by
    unfold plan_iterations
    rw [if_pos (by norm_num [o_C9])]
  have hcl := coreLoop_ok o_C9.opOk [PyVal.tensorSet 0] (by decide) hok
  refine ⟨rfl, hb, hplan, by decide, ?_, by decide⟩
  have hpt : ∃ evs lat, perf_try e_C9 o_C9 [PyVal.tensorSet 0] = (evs, .ok lat) := by
    unfold perf_try
    simp [hw, hplan, core_perf, hcl]
  obtain ⟨evs0, lat0, hpt0⟩ := hpt
  refine ⟨lat0, evs0 ++ [Event.freePool, Event.emptyCache, Event.emitReport], ?_⟩
  unfold perf
  rw [hb]
  simp [hpt0]
  rfl

/-- C9 (amended): when the requested iteration count is 0, the pool is
non-empty, every warm-up/calibration call succeeds, and the calibrated
average is positive and within the 10-second budget, the planner computes
`prefer_iterations = 0`, `core_perf`'s final division raises
`ZeroDivisionError`, and `perf` catches it and reports latency 0 with error
`"RUN_OP_ERROR"`.  (With an average above the budget the planner instead
picks 2 iterations and the failure does not occur.) -/
theorem claim_C9_zero_iterations (e : Env) (o : Oracle) (tl : List PyVal)
    (hd : e.dtypeValid = true) (hb : build_tensor e = .ok tl) (hlen : 0 < tl.length)
    (hit : e.iterations = 0)
    (hok : ∀ v ∈ tl, callOk o.opOk v = true)
    (hpos : 0 < ((o.calibElapsedNs : ℚ) / 10 ^ 9 / 5))
    (hle10 : ((o.calibElapsedNs : ℚ) / 10 ^ 9 / 5) ≤ 10) :
    plan_iterations ((o.calibElapsedNs : ℚ) / 10 ^ 9 / 5) e.iterations = .ok 0 ∧
    (core_perf o.opOk o.coreElapsedNs 0 tl).2 = .error "ZeroDivisionError" ∧
    ∃ evs, perf e o =
      .ok ({ comm := e.op_name ∈ comm_ops_report, latency := 0,
             error := "RUN_OP_ERROR" }, evs) := by
  have hplan : plan_iterations ((o.calibElapsedNs : ℚ) / 10 ^ 9 / 5) e.iterations
      = .ok 0 := by
    unfold plan_iterations
    rw [if_neg (not_lt.mpr hle10), if_neg (ne_of_gt hpos), hit]
    simp [Int.toNat_eq_zero]
  have hzero : (core_perf o.opOk o.coreElapsedNs 0 tl).2 = .error "ZeroDivisionError" := by
    simp [core_perf, coreLoop]
  refine ⟨hplan, hzero, ?_⟩
  have hw := runCalls_ok o tl hlen hok
  have hpt : ∃ evs, perf_try e o tl = (evs, .error "ZeroDivisionError") := by
    unfold perf_try
    simp [hw, hplan, core_perf, coreLoop]
  obtain ⟨evs0, hpt0⟩ := hpt
  refine ⟨evs0 ++ [Event.freePool, Event.emptyCache, Event.emitReport], ?_⟩
  unfold perf
  rw [hb]
  simp [hd, hlen, hpt0]

theorem claim_C9_zero_iterations_witness :
    plan_iterations ((o_C9w.calibElapsedNs : ℚ) / 10 ^ 9 / 5) e_C9.iterations = .ok 0 ∧
    (core_perf o_C9w.opOk o_C9w.coreElapsedNs 0 [PyVal.tensorSet 0]).2
      = .error "ZeroDivisionError" ∧
    ∃ evs, perf e_C9 o_C9w =
      .ok ({ comm := e_C9.op_name ∈ comm_ops_report, latency := 0,
             error := "RUN_OP_ERROR" }, evs) :=
  claim_C9_zero_iterations e_C9 o_C9w [PyVal.tensorSet 0] rfl
    (by
      rw [build_tensor_comm e_C9 2 (by decide) (by rfl),
        if_neg (by norm_num [assume_avail_bytes, e_C9])])
    (by decide) rfl (by decide)
    (by norm_num [o_C9w])
    (by norm_num [o_C9w])
